import Mathlib

/-!
CT400_lib.h: the declared interface of the CT400 library.

`CT400_lib.h` is a header: five enumerations and thirty-seven exported entry
points, each with a comment block giving its parameters and its return
contract.  The development below embeds

* the enumerations, as lists of enumerators evaluated by the C numbering rule;
* the entry points, as a table holding for every prototype its return type, its
  parameters (direction, type, declarator, name) and the `Returns:` clause of
  its comment block;
* the behaviour of the library behind the header, which is not part of the
  repository, as a session model written from the specification.
-/

namespace CT400

/-! ## Enumerations -/

/-- One enumerator of a C `enum`: its identifier and, when present, the value
written after `=`. -/
structure Enumerator where
  name : String
  explicit : Option Int
  deriving DecidableEq, Repr

/-- C numbering of enumerators: an enumerator with `= v` has value `v`, any
other has the value of its predecessor plus one; `next` is the value an
enumerator without `=` receives. -/
def enumValuesFrom : Int → List Enumerator → List (String × Int)
  | _, [] => []
  | next, e :: es =>
    let v := e.explicit.getD next
    (e.name, v) :: enumValuesFrom (v + 1) es

/-- Values of the enumerators of an `enum`; the first one defaults to 0. -/
def enumValues (es : List Enumerator) : List (String × Int) :=
  enumValuesFrom 0 es

/-- Value of the enumerator `tag` in an `enum`, if it is declared there. -/
def enumValue? (es : List Enumerator) (tag : String) : Option Int :=
  ((enumValues es).find? (fun p => p.1 == tag)).map Prod.snd

/-- `typedef enum { ... } rLaserSource;` (lines 22-32). -/
def rLaserSource : List Enumerator :=
  [ ⟨"LS_TunicsPlus", some 0⟩,
    ⟨"LS_TunicsPurity", none⟩,
    ⟨"LS_TunicsReference", none⟩,
    ⟨"LS_TunicsT100s_HP", none⟩,
    ⟨"LS_TunicsT100r", none⟩,
    ⟨"LS_JdsuSws", none⟩,
    ⟨"LS_Agilent", none⟩,
    ⟨"NB_SOURCE", none⟩ ]

/-- `typedef enum { ... } rLaserInput;` (lines 34-40). -/
def rLaserInput : List Enumerator :=
  [ ⟨"LI_1", some 1⟩,
    ⟨"LI_2", none⟩,
    ⟨"LI_3", none⟩,
    ⟨"LI_4", none⟩ ]

/-- `typedef enum { ... } rDetector;` (lines 42-49). -/
def rDetector : List Enumerator :=
  [ ⟨"DE_1", some 1⟩,
    ⟨"DE_2", none⟩,
    ⟨"DE_3", none⟩,
    ⟨"DE_4", none⟩,
    ⟨"DE_5", none⟩ ]

/-- `typedef enum { ... } rEnable;` (lines 51-55). -/
def rEnable : List Enumerator :=
  [ ⟨"DISABLE", some 0⟩,
    ⟨"ENABLE", none⟩ ]

/-- `typedef enum { ... } rUnit;` (lines 57-60). -/
def rUnit : List Enumerator :=
  [ ⟨"Unit_mW", some 0⟩,
    ⟨"Unit_dBm", none⟩ ]

/-- The numeric values an `enum` takes, in declaration order. -/
def valueSet (es : List Enumerator) : List Int :=
  (enumValues es).map Prod.snd

/-- The laser models named by `rLaserSource`: every enumerator except the
closing sentinel `NB_SOURCE`. -/
def laserModels : List (String × Int) :=
  (enumValues rLaserSource).filter (fun p => p.1 != "NB_SOURCE")

/-! ## Entry points -/

/-- Type names that occur in the prototypes. -/
inductive CType
  | uint64_t | int32_t | uint32_t | double | char
  | rLaserSource | rLaserInput | rDetector | rEnable | rUnit
  deriving DecidableEq, Repr

/-- Shape of a parameter declarator: `T x`, `T *x`, `T x[]` or `T x[n]`. -/
inductive Declarator
  | value
  | pointer
  | array (bound : Option Nat)
  deriving DecidableEq, Repr

/-- Direction given to a parameter in the comment block of its function. -/
inductive Direction
  | IN
  | IN_OUT
  deriving DecidableEq, Repr

/-- One parameter of a prototype, with the direction its comment block gives. -/
structure Param where
  dir : Direction
  ctype : CType
  decl : Declarator
  name : String
  deriving DecidableEq, Repr

/-- The exported functions, in the order of the header. -/
inductive Fn
  | CT400_Init
  | CT400_CheckConnected
  | CT400_GetNbInputs
  | CT400_GetNbDetectors
  | CT400_GetCT400Type
  | CT400_SetLaser
  | CT400_SetSamplingResolution
  | CT400_SetScan
  | CT400_SetDetectorArray
  | CT400_SetBNC
  | CT400_SetExternalSynchronization
  | CT400_SetExternalSynchronizationIN
  | CT400_ScanStart
  | CT400_ScanStop
  | CT400_ScanWaitEnd
  | CT400_GetNbDataPoints
  | CT400_GetNbDataPointsResampled
  | CT400_GetNbLinesDetected
  | CT400_ScanGetLinesDetectionArray
  | CT400_ScanGetWavelengthSyncArray
  | CT400_ScanGetWavelengthResampledArray
  | CT400_ScanGetPowerSyncArray
  | CT400_ScanGetPowerResampledArray
  | CT400_ScanGetDetectorArray
  | CT400_ScanGetDetectorResampledArray
  | CT400_ScanSaveWavelengthSyncFile
  | CT400_ScanSaveWavelengthResampledFile
  | CT400_ScanSavePowerSyncFile
  | CT400_ScanSavePowerResampledFile
  | CT400_ScanSaveDetectorFile
  | CT400_ScanSaveDetectorResampledFile
  | CT400_UpdateCalibration
  | CT400_ResetCalibration
  | CT400_SwitchInput
  | CT400_ReadPowerDetectors
  | CT400_CmdLaser
  | CT400_Close
  deriving DecidableEq, Repr

/-- What a `Returns:` clause gives as the value of a successful call. -/
inductive Yield
  /-- A literal value, as in `0 if success` or `1 if CT400 is connected`. -/
  | lit (v : Int)
  /-- The clause `uiHandle for use in subsequent functions`. -/
  | handle
  /-- A number of items: inputs, detectors, data points, lines, or the
  available data points in the array. -/
  | count
  /-- The clause `CT400 Type if success(0, 1, 2)`. -/
  | typeCode
  /-- The clause `error number and error description (0 = no error)`. -/
  | errorNumber
  /-- The clause `value of corresponding data points in the array`. -/
  | dataPoints
  deriving DecidableEq, Repr

/-- The `Returns:` clause of a comment block. -/
structure Returns where
  /-- Value of a successful call. -/
  success : Yield
  /-- What the clause says is delivered together with that value. -/
  also : List String
  /-- The value after `otherwise`; for `CT400_Init` the handle value that
  `indicate that init() failed`. -/
  otherwise : Int
  /-- Error codes the clause gives for an output parameter, as in
  `iError = -1001, DSP firmware version not compatible`. -/
  outCodes : List (String × Int)
  deriving DecidableEq, Repr

/-- One exported function: prototype and `Returns:` clause. -/
structure EntryPoint where
  fn : Fn
  ret : CType
  params : List Param
  returns : Returns
  deriving DecidableEq, Repr

/-- The parameter `uint64_t uiHandle`, documented `IN uiHandle: from CT400_Init`. -/
def uiHandle : Param := ⟨.IN, .uint64_t, .value, "uiHandle"⟩

/-- A parameter passed by value and documented `IN`. -/
def byValue (t : CType) (name : String) : Param := ⟨.IN, t, .value, name⟩

/-- A parameter `T *name` documented `IN/OUT`. -/
def outPtr (t : CType) (name : String) : Param := ⟨.IN_OUT, t, .pointer, name⟩

/-- The parameter `double dArray[]`, documented `IN/OUT dArray`. -/
def dArray : Param := ⟨.IN_OUT, .double, .array none, "dArray"⟩

/-- The parameter `int32_t iArraySize`, documented `IN iArraySize: size of the array`. -/
def iArraySize : Param := byValue .int32_t "iArraySize"

/-- The parameter `char tcError[1024]` of `CT400_ScanWaitEnd`, documented
`IN/OUT tcError[1024]`. -/
def tcError : Param := ⟨.IN_OUT, .char, .array (some 1024), "tcError"⟩

/-- The clause `0 if success, -1 otherwise`. -/
def zeroOrMinusOne : Returns := ⟨.lit 0, [], -1, []⟩

/-- The clause `available data points in the array and the corresponding data
values, -1 otherwise`. -/
def availablePoints : Returns := ⟨.count, ["data values"], -1, []⟩

/-- The clause `0 if success and the corresponding file path, otherwise -1`. -/
def zeroAndFilePath : Returns := ⟨.lit 0, ["file path"], -1, []⟩

/-- The prototypes of CT400_lib.h (lines 63-554), in order. -/
def entryPoints : List EntryPoint :=
  [ ⟨.CT400_Init, .uint64_t, [outPtr .int32_t "iError"],
      ⟨.handle, [], 0, [("iError", -1001)]⟩⟩,
    ⟨.CT400_CheckConnected, .int32_t, [uiHandle], ⟨.lit 1, [], 0, []⟩⟩,
    ⟨.CT400_GetNbInputs, .int32_t, [uiHandle], ⟨.count, [], -1, []⟩⟩,
    ⟨.CT400_GetNbDetectors, .int32_t, [uiHandle], ⟨.count, [], -1, []⟩⟩,
    ⟨.CT400_GetCT400Type, .int32_t, [uiHandle], ⟨.typeCode, [], -1, []⟩⟩,
    ⟨.CT400_SetLaser, .int32_t,
      [uiHandle, byValue .rLaserInput "eLaser", byValue .rEnable "eEnable",
       byValue .int32_t "iGPIBAdress", byValue .rLaserSource "eLaserType",
       byValue .double "dMinWavelength", byValue .double "dMaxWavelength",
       byValue .int32_t "Speed"],
      zeroOrMinusOne⟩,
    ⟨.CT400_SetSamplingResolution, .int32_t,
      [uiHandle, byValue .uint32_t "uiResolution"], zeroOrMinusOne⟩,
    ⟨.CT400_SetScan, .int32_t,
      [uiHandle, byValue .double "dLaserPower", byValue .double "dMinWavelength",
       byValue .double "dMaxWavelength"],
      zeroOrMinusOne⟩,
    ⟨.CT400_SetDetectorArray, .int32_t,
      [uiHandle, byValue .rEnable "eDect2", byValue .rEnable "eDect3",
       byValue .rEnable "eDect4", byValue .rEnable "eExt"],
      zeroOrMinusOne⟩,
    ⟨.CT400_SetBNC, .int32_t,
      [uiHandle, byValue .rEnable "eEnable", byValue .double "dAlpha",
       byValue .double "dBeta", byValue .rUnit "eUnit"],
      zeroOrMinusOne⟩,
    ⟨.CT400_SetExternalSynchronization, .int32_t,
      [uiHandle, byValue .rEnable "eEnable"], zeroOrMinusOne⟩,
    ⟨.CT400_SetExternalSynchronizationIN, .int32_t,
      [uiHandle, byValue .rEnable "eEnable"], zeroOrMinusOne⟩,
    ⟨.CT400_ScanStart, .int32_t, [uiHandle], zeroOrMinusOne⟩,
    ⟨.CT400_ScanStop, .int32_t, [uiHandle], zeroOrMinusOne⟩,
    ⟨.CT400_ScanWaitEnd, .int32_t,
      [uiHandle, tcError],
      ⟨.errorNumber, ["error description"], -1, []⟩⟩,
    ⟨.CT400_GetNbDataPoints, .int32_t,
      [uiHandle, outPtr .int32_t "iDataPoints", outPtr .int32_t "iDiscardPoints"],
      ⟨.count, ["index value of the first-valid top pulse"], -1, []⟩⟩,
    ⟨.CT400_GetNbDataPointsResampled, .int32_t, [uiHandle], ⟨.count, [], -1, []⟩⟩,
    ⟨.CT400_GetNbLinesDetected, .int32_t, [uiHandle], ⟨.count, [], -1, []⟩⟩,
    ⟨.CT400_ScanGetLinesDetectionArray, .int32_t, [uiHandle, dArray, iArraySize],
      ⟨.dataPoints, [], -1, []⟩⟩,
    ⟨.CT400_ScanGetWavelengthSyncArray, .int32_t, [uiHandle, dArray, iArraySize],
      availablePoints⟩,
    ⟨.CT400_ScanGetWavelengthResampledArray, .int32_t, [uiHandle, dArray, iArraySize],
      availablePoints⟩,
    ⟨.CT400_ScanGetPowerSyncArray, .int32_t, [uiHandle, dArray, iArraySize],
      availablePoints⟩,
    ⟨.CT400_ScanGetPowerResampledArray, .int32_t, [uiHandle, dArray, iArraySize],
      availablePoints⟩,
    ⟨.CT400_ScanGetDetectorArray, .int32_t,
      [uiHandle, byValue .rDetector "eDetector", dArray, iArraySize], availablePoints⟩,
    ⟨.CT400_ScanGetDetectorResampledArray, .int32_t,
      [uiHandle, byValue .rDetector "eDetector", dArray, iArraySize], availablePoints⟩,
    ⟨.CT400_ScanSaveWavelengthSyncFile, .int32_t,
      [uiHandle, outPtr .char "pcPath"], zeroAndFilePath⟩,
    ⟨.CT400_ScanSaveWavelengthResampledFile, .int32_t,
      [uiHandle, outPtr .char "pcPath"], zeroAndFilePath⟩,
    ⟨.CT400_ScanSavePowerSyncFile, .int32_t,
      [uiHandle, outPtr .char "pcPath"], zeroAndFilePath⟩,
    ⟨.CT400_ScanSavePowerResampledFile, .int32_t,
      [uiHandle, outPtr .char "pcPath"], zeroAndFilePath⟩,
    ⟨.CT400_ScanSaveDetectorFile, .int32_t,
      [uiHandle, byValue .rDetector "eDetector", outPtr .char "pcPath"], zeroAndFilePath⟩,
    ⟨.CT400_ScanSaveDetectorResampledFile, .int32_t,
      [uiHandle, byValue .rDetector "eDetector", outPtr .char "pcPath"], zeroAndFilePath⟩,
    ⟨.CT400_UpdateCalibration, .int32_t,
      [uiHandle, byValue .rDetector "eDetector"], zeroOrMinusOne⟩,
    ⟨.CT400_ResetCalibration, .int32_t, [uiHandle], zeroOrMinusOne⟩,
    ⟨.CT400_SwitchInput, .int32_t,
      [uiHandle, byValue .rLaserInput "eLaser"], zeroOrMinusOne⟩,
    ⟨.CT400_ReadPowerDetectors, .int32_t,
      [uiHandle, outPtr .double "Pout", outPtr .double "P1", outPtr .double "P2",
       outPtr .double "P3", outPtr .double "P4", outPtr .double "Vext"],
      zeroOrMinusOne⟩,
    ⟨.CT400_CmdLaser, .int32_t,
      [uiHandle, byValue .rLaserInput "eLaser", byValue .rEnable "eEnable",
       byValue .double "dWavelength", byValue .double "dPower"],
      zeroOrMinusOne⟩,
    ⟨.CT400_Close, .int32_t, [uiHandle], zeroOrMinusOne⟩ ]

/-- The declaration of an exported function. -/
def declOf (f : Fn) : Option EntryPoint :=
  entryPoints.find? (fun e => e.fn == f)

/-! ## Notions read off the table -/

/-- The configuration entry points: the `CT400_Set*` functions and
`CT400_SwitchInput`. -/
def configurationFns : List Fn :=
  [ .CT400_SetLaser, .CT400_SetSamplingResolution, .CT400_SetScan,
    .CT400_SetDetectorArray, .CT400_SetBNC, .CT400_SetExternalSynchronization,
    .CT400_SetExternalSynchronizationIN, .CT400_SwitchInput ]

/-- The declarations of the configuration entry points. -/
def configurationEntryPoints : List EntryPoint :=
  entryPoints.filter (fun e => e.fn ∈ configurationFns)

/-- Parameters through which the library can hand something back: pointers,
arrays, and anything documented `IN/OUT`. -/
def outputParams (e : EntryPoint) : List Param :=
  e.params.filter (fun p => p.dir == .IN_OUT || p.decl != .value)

/-- The `Returns:` clause is exactly `0 if success, -1 otherwise`: the value 0
on success, nothing delivered besides it, -1 otherwise, and no error code for
an output parameter. -/
def binaryContract (e : EntryPoint) : Bool :=
  e.returns.success == .lit 0 && e.returns.also == [] && e.returns.otherwise == -1 &&
    e.returns.outCodes == []

/-- The returned integer is documented as 0 on success and -1 otherwise,
whatever else the clause says is delivered with it. -/
def returnsZeroOrMinusOne (e : EntryPoint) : Bool :=
  e.returns.success == .lit 0 && e.returns.otherwise == -1 && e.returns.outCodes == []

/-- The error codes other than -1 that the `Returns:` clause gives for an
output parameter. -/
def outCodesBeyondMinusOne (e : EntryPoint) : List (String × Int) :=
  e.returns.outCodes.filter (fun c => c.2 != -1)

/-- The entry point is documented to report an error code other than -1: its
return value is an error number, or an output parameter receives such a code. -/
def reportsErrorCode (e : EntryPoint) : Bool :=
  e.returns.success == .errorNumber || outCodesBeyondMinusOne e != []

/-- The `CT400_ScanGet*Array` family. -/
def scanGetArrayFns : List Fn :=
  [ .CT400_ScanGetLinesDetectionArray, .CT400_ScanGetWavelengthSyncArray,
    .CT400_ScanGetWavelengthResampledArray, .CT400_ScanGetPowerSyncArray,
    .CT400_ScanGetPowerResampledArray, .CT400_ScanGetDetectorArray,
    .CT400_ScanGetDetectorResampledArray ]

/-- Array parameters of a prototype: `T x[]` and `T x[n]`. -/
def arrayParams (e : EntryPoint) : List Param :=
  e.params.filter (fun p => match p.decl with
    | .array _ => true
    | _ => false)

/-- By-value parameters of type `int32_t` or `uint32_t`: the parameters of a
prototype that can carry an element count. -/
def countParams (e : EntryPoint) : List Param :=
  e.params.filter (fun p => p.decl == .value && (p.ctype == .int32_t || p.ctype == .uint32_t))

/-- The parameter that follows `p` in the prototype. -/
def paramAfter (e : EntryPoint) (p : Param) : Option Param :=
  (e.params.dropWhile (fun q => q != p)).tail.head?

/-- The bound written in the declarator of the first array parameter that has
one, as in `char tcError[1024]`. -/
def declaredBound (e : EntryPoint) : Option Nat :=
  (e.params.filterMap (fun p => match p.decl with
    | .array b => b
    | _ => none)).head?

/-- The capacity a call conveys for the array it fills: the argument passed
for `iArraySize` when the prototype has that parameter (a negative argument
leaves room for nothing), otherwise the bound of the array declarator. -/
def capacityOf (e : EntryPoint) (arraySizeArg : Int) : Option Nat :=
  if iArraySize ∈ e.params then some arraySizeArg.toNat else declaredBound e

/-- The identifier of an exported function, as the header spells it. -/
def fnName : Fn → String
  | .CT400_Init => "CT400_Init"
  | .CT400_CheckConnected => "CT400_CheckConnected"
  | .CT400_GetNbInputs => "CT400_GetNbInputs"
  | .CT400_GetNbDetectors => "CT400_GetNbDetectors"
  | .CT400_GetCT400Type => "CT400_GetCT400Type"
  | .CT400_SetLaser => "CT400_SetLaser"
  | .CT400_SetSamplingResolution => "CT400_SetSamplingResolution"
  | .CT400_SetScan => "CT400_SetScan"
  | .CT400_SetDetectorArray => "CT400_SetDetectorArray"
  | .CT400_SetBNC => "CT400_SetBNC"
  | .CT400_SetExternalSynchronization => "CT400_SetExternalSynchronization"
  | .CT400_SetExternalSynchronizationIN => "CT400_SetExternalSynchronizationIN"
  | .CT400_ScanStart => "CT400_ScanStart"
  | .CT400_ScanStop => "CT400_ScanStop"
  | .CT400_ScanWaitEnd => "CT400_ScanWaitEnd"
  | .CT400_GetNbDataPoints => "CT400_GetNbDataPoints"
  | .CT400_GetNbDataPointsResampled => "CT400_GetNbDataPointsResampled"
  | .CT400_GetNbLinesDetected => "CT400_GetNbLinesDetected"
  | .CT400_ScanGetLinesDetectionArray => "CT400_ScanGetLinesDetectionArray"
  | .CT400_ScanGetWavelengthSyncArray => "CT400_ScanGetWavelengthSyncArray"
  | .CT400_ScanGetWavelengthResampledArray => "CT400_ScanGetWavelengthResampledArray"
  | .CT400_ScanGetPowerSyncArray => "CT400_ScanGetPowerSyncArray"
  | .CT400_ScanGetPowerResampledArray => "CT400_ScanGetPowerResampledArray"
  | .CT400_ScanGetDetectorArray => "CT400_ScanGetDetectorArray"
  | .CT400_ScanGetDetectorResampledArray => "CT400_ScanGetDetectorResampledArray"
  | .CT400_ScanSaveWavelengthSyncFile => "CT400_ScanSaveWavelengthSyncFile"
  | .CT400_ScanSaveWavelengthResampledFile => "CT400_ScanSaveWavelengthResampledFile"
  | .CT400_ScanSavePowerSyncFile => "CT400_ScanSavePowerSyncFile"
  | .CT400_ScanSavePowerResampledFile => "CT400_ScanSavePowerResampledFile"
  | .CT400_ScanSaveDetectorFile => "CT400_ScanSaveDetectorFile"
  | .CT400_ScanSaveDetectorResampledFile => "CT400_ScanSaveDetectorResampledFile"
  | .CT400_UpdateCalibration => "CT400_UpdateCalibration"
  | .CT400_ResetCalibration => "CT400_ResetCalibration"
  | .CT400_SwitchInput => "CT400_SwitchInput"
  | .CT400_ReadPowerDetectors => "CT400_ReadPowerDetectors"
  | .CT400_CmdLaser => "CT400_CmdLaser"
  | .CT400_Close => "CT400_Close"

/-- The part of the identifier of `f` between a leading `pre` and a trailing
`suf`, when the identifier has that shape. -/
def nameBetween (pre suf : String) (f : Fn) : Option String :=
  if pre.data.isPrefixOf (fnName f).data && suf.data.isSuffixOf (fnName f).data then
    some (String.mk
      (((fnName f).data.drop pre.data.length).take
        ((fnName f).data.length - pre.data.length - suf.data.length)))
  else
    none

/-- The measurement series of a `CT400_ScanGet*Array` entry point: the part of
its identifier that the star stands for. -/
def getSeries (f : Fn) : Option String := nameBetween "CT400_ScanGet" "Array" f

/-- The measurement series of a `CT400_ScanSave*File` entry point: the part of
its identifier that the star stands for. -/
def saveSeries (f : Fn) : Option String := nameBetween "CT400_ScanSave" "File" f

/-- The series that the `CT400_ScanGet*Array` entry points deliver, in the
order of the header. -/
def arraySeries : List String := entryPoints.filterMap (fun e => getSeries e.fn)

/-- The series that the `CT400_ScanSave*File` entry points deliver, in the
order of the header. -/
def fileSeries : List String := entryPoints.filterMap (fun e => saveSeries e.fn)

/-- The series is in resampled form: its name ends in `Resampled`. -/
def isResampled (x : String) : Bool := "Resampled".data.isSuffixOf x.data

/-- The series is per-detector: its name starts with `Detector`. -/
def perDetector (x : String) : Bool := "Detector".data.isPrefixOf x.data

/-- The name of the resampled form of a raw or synchronised series:
`Resampled` takes the place of a trailing `Sync`, and is appended otherwise. -/
def resampledOf (x : String) : String :=
  if "Sync".data.isSuffixOf x.data then
    String.mk (x.data.take (x.data.length - 4) ++ "Resampled".data)
  else
    String.mk (x.data ++ "Resampled".data)

/-- The selector parameters of an entry point: its `IN` parameters other than
the handle and the array size. -/
def selectorParams (e : EntryPoint) : List Param :=
  e.params.filter (fun p => p.dir == .IN && p != uiHandle && p != iArraySize)

/-- The integers a `Returns:` clause allows as the value of a successful call.
A literal allows itself; a handle is nonzero, since `uiHandle = 0` indicates a
failed init; a number of items is not negative; the CT400 type is 0, 1 or 2;
an error number is not restricted by the header.  The clause `value of
corresponding data points in the array` of `CT400_ScanGetLinesDetectionArray`
is read as the number of those data points, as the clauses of the other
`CT400_ScanGet*Array` functions say it. -/
def Yield.admits : Yield → Int → Bool
  | .lit k, v => v == k
  | .handle, v => decide (0 < v)
  | .count, v => decide (0 ≤ v)
  | .typeCode, v => v == 0 || v == 1 || v == 2
  | .errorNumber, _ => true
  | .dataPoints, v => decide (0 ≤ v)

/-- The integers the `Returns:` clause of an entry point documents: a value
of a successful call, or the value after `otherwise`. -/
def documentedReturn (e : EntryPoint) (v : Int) : Bool :=
  e.returns.success.admits v || v == e.returns.otherwise

/-- The value of a successful call is a number of items or a type code. -/
def yieldsCount (e : EntryPoint) : Bool :=
  match e.returns.success with
  | .count => true
  | .typeCode => true
  | .dataPoints => true
  | _ => false

/-! ## The library behind the header

The functions are implemented in the vendor library, which is not part of the
repository.  The definitions of this section are written from the
specification. -/

/-- Modelled from the spec: the state of the library behind the header (the
implementation of every `CT400_*` function is missing).  A handle is the token
of one initialised session; handles are natural numbers, numbered from 1 in the
order `CT400_Init` creates them, and no handle is given out twice.  `issued` counts the handles created so far, `live`
holds the handles of the sessions that are initialised and not closed, and
`acted` records each call that was carried out on a device. -/
structure Library where
  issued : Nat
  live : List Nat
  acted : List (Fn × Nat)
  deriving DecidableEq, Repr

/-- Modelled from the spec: `CT400_Init`, whose body is missing.  `status` is
the outcome of acquiring the device: 0 when it was acquired, otherwise the
error code of the failure (-1001 when the DSP firmware version is not
compatible).  The result is the returned handle, the value stored through
`iError`, and the next state: on failure a zero handle and the nonzero error,
on success the handle of a new session. -/
def CT400_Init (status : Int) (s : Library) : (Nat × Int) × Library :=
  if status = 0 then
    ((s.issued + 1, 0), ⟨s.issued + 1, (s.issued + 1) :: s.live, s.acted⟩)
  else
    ((0, status), s)

/-- Modelled from the spec: the library stores the items it holds into the
memory of the caller, one element after the other from position `i` of the
array on, and stops at the capacity of the array (the implementation is
missing).  `mem` is the memory of the caller from the first element of the
array onwards, so the positions from `capacity` on lie beyond the array. -/
def fillFrom {α : Type} (i capacity : Nat) : List α → List α → List α
  | [], mem => mem
  | d :: ds, mem => if i < capacity then fillFrom (i + 1) capacity ds (mem.set i d) else mem

/-- Modelled from the spec: an array-filling call of the entry point `e` (the
implementation is missing): the items are stored from the start of the array
up to the capacity the call conveys. -/
def fillArray {α : Type} (e : EntryPoint) (arraySizeArg : Int) (items mem : List α) : List α :=
  match capacityOf e arraySizeArg with
  | some c => fillFrom 0 c items mem
  | none => mem

/-! ## Lemmas on the session model -/

/-- Positions from the capacity on are not touched by `fillFrom`, and the
memory keeps its length. -/
theorem fillFrom_frame {α : Type} (items : List α) (i capacity : Nat) (mem : List α) :
    (fillFrom i capacity items mem).length = mem.length ∧
    ∀ j, capacity ≤ j → (fillFrom i capacity items mem)[j]? = mem[j]? := by
  induction items generalizing i mem with
  | nil => simp [fillFrom]
  | cons d ds ih =>
    simp only [fillFrom]
    split_ifs with hlt
    · obtain ⟨hlen, hget⟩ := ih (i + 1) (mem.set i d)
      refine ⟨by simpa using hlen, fun j hj => ?_⟩
      rw [hget j hj]
      exact List.getElem?_set_ne (by omega)
    · exact ⟨rfl, fun _ _ => rfl⟩

/-! ## The claims -/

/-- C1: for every call of `CT400_Init`, initialisation fails (the device is not
acquired, no session is opened) exactly when the returned handle is 0, and a
failed call stores a nonzero error code through `iError` and leaves the library
as it was; the documented firmware-incompatibility code -1001 is one such
code, and 0 is the handle value the header documents for a failed init. -/
theorem init_failure_zero_handle (status : Int) (s : Library) :
    (status ≠ 0 ↔ (CT400_Init status s).1.1 = 0) ∧
    ((CT400_Init status s).2.live = s.live ↔ (CT400_Init status s).1.1 = 0) ∧
    ((CT400_Init status s).1.1 = 0 →
      (CT400_Init status s).1.2 ≠ 0 ∧ (CT400_Init status s).2 = s) ∧
    (declOf .CT400_Init).map (fun e => (e.returns.otherwise, e.returns.outCodes))
      = some (0, [("iError", -1001)]) ∧
    CT400_Init (-1001) s = ((0, -1001), s) := by
  refine ⟨?_, ?_, ?_, by decide, by simp [CT400_Init]⟩
  · unfold CT400_Init
    split_ifs with h <;> simp [h]
  · unfold CT400_Init
    split_ifs with h
    · simp
    · simp
  · unfold CT400_Init
    split_ifs with h
    · simp
    · intro _
      exact ⟨h, rfl⟩

/-- C3: every declared entry point other than `CT400_Init` has `uint64_t
uiHandle` as its first parameter and returns `int32_t`; `CT400_Init` is the
only entry point without a `uint64_t` parameter (it takes no handle), and the
only one that returns `uint64_t`. -/
theorem handle_first_parameter :
    (∀ e ∈ entryPoints, e.fn ≠ .CT400_Init →
      e.params.head? = some ⟨.IN, .uint64_t, .value, "uiHandle"⟩ ∧ e.ret = .int32_t) ∧
    (entryPoints.filter (fun e => e.params.all (fun p => p.ctype != .uint64_t))).map
      (fun e => e.fn) = [.CT400_Init] ∧
    (entryPoints.filter (fun e => uiHandle ∉ e.params)).map (fun e => e.fn) = [.CT400_Init] ∧
    (entryPoints.filter (fun e => e.ret == .uint64_t)).map (fun e => e.fn) = [.CT400_Init] := by
  decide

/-- C4 as stated fails at `CT400_ScanWaitEnd`: it fills the caller-supplied
array `tcError`, and its prototype has the handle and that array as its only
parameters, so no parameter carries the capacity. -/
theorem scanWaitEnd_has_no_capacity_parameter :
    (declOf .CT400_ScanWaitEnd).map (fun e => (e.params, arrayParams e, countParams e))
      = some ([uiHandle, tcError], [tcError], []) ∧
    ¬ (∀ e ∈ entryPoints, arrayParams e ≠ [] → countParams e ≠ []) := by
  decide

/-- C4, amended: every declared entry point with an array parameter is either
one of the `CT400_ScanGet*Array` family, whose array `double dArray[]` is
followed by `int32_t iArraySize`, its only count parameter, which carries the
capacity; or `CT400_ScanWaitEnd`, which has no count parameter and whose array
`char tcError[1024]` has the fixed capacity 1024 of its declarator.  In both
cases the call leaves every position from the capacity on as it was. -/
theorem array_fill_within_capacity {α : Type} (e : EntryPoint) (p : Param) (arg : Int)
    (items mem : List α) (he : e ∈ entryPoints) (hp : p ∈ arrayParams e) :
    ((e.fn ∈ scanGetArrayFns ∧ p = dArray ∧ paramAfter e p = some iArraySize ∧
        countParams e = [iArraySize] ∧ capacityOf e arg = some arg.toNat) ∨
     (e.fn = .CT400_ScanWaitEnd ∧ p = tcError ∧ countParams e = [] ∧
        capacityOf e arg = some 1024)) ∧
    (fillArray e arg items mem).length = mem.length ∧
    ∀ c, capacityOf e arg = some c →
      ∀ j, c ≤ j → (fillArray e arg items mem)[j]? = mem[j]? := by
  have key : ∀ e ∈ entryPoints, ∀ p ∈ arrayParams e,
      (e.fn ∈ scanGetArrayFns ∧ p = dArray ∧ paramAfter e p = some iArraySize ∧
        countParams e = [iArraySize] ∧ iArraySize ∈ e.params) ∨
      (e.fn = .CT400_ScanWaitEnd ∧ p = tcError ∧ countParams e = [] ∧
        iArraySize ∉ e.params ∧ declaredBound e = some 1024) := by
    decide
  refine ⟨?_, ?_, ?_⟩
  · rcases key e he p hp with ⟨h1, h2, h3, h4, h5⟩ | ⟨h1, h2, h3, h4, h5⟩
    · exact Or.inl ⟨h1, h2, h3, h4, by simp [capacityOf, h5]⟩
    · exact Or.inr ⟨h1, h2, h3, by simp [capacityOf, h4, h5]⟩
  · unfold fillArray
    cases capacityOf e arg with
    | none => rfl
    | some c => exact (fillFrom_frame items 0 c mem).1
  · intro c hc j hj
    unfold fillArray
    rw [hc]
    exact (fillFrom_frame items 0 c mem).2 j hj

/-- C4, amended, at `CT400_ScanGetPowerSyncArray` with `iArraySize = 2`: of
five items two are stored, and position 3 keeps its content. -/
theorem array_fill_within_capacity_witness :
    (⟨.CT400_ScanGetPowerSyncArray, .int32_t, [uiHandle, dArray, iArraySize], availablePoints⟩
      : EntryPoint) ∈ entryPoints ∧
    dArray ∈ arrayParams
      ⟨.CT400_ScanGetPowerSyncArray, .int32_t, [uiHandle, dArray, iArraySize], availablePoints⟩ ∧
    fillArray ⟨.CT400_ScanGetPowerSyncArray, .int32_t, [uiHandle, dArray, iArraySize],
      availablePoints⟩ 2 [11, 12, 13, 14, 15] [0, 0, 0, 0] = [11, 12, 0, 0] ∧
    (fillArray ⟨.CT400_ScanGetPowerSyncArray, .int32_t, [uiHandle, dArray, iArraySize],
      availablePoints⟩ 2 [11, 12, 13, 14, 15] [0, 0, 0, 0])[3]? = [0, 0, 0, 0][3]? :=
  ⟨by decide, by decide, by decide,
    (array_fill_within_capacity
      ⟨.CT400_ScanGetPowerSyncArray, .int32_t, [uiHandle, dArray, iArraySize], availablePoints⟩
      dArray 2 [11, 12, 13, 14, 15] [0, 0, 0, 0] (by decide) (by decide)).2.2 2 (by decide) 3
      (by decide)⟩

/-- C5: each of the eight configuration entry points is declared, returns
`int32_t`, documents exactly `0 if success, -1 otherwise` (success value 0,
failure value -1, nothing delivered besides, no error code for an output
parameter), and has no output parameter at all. -/
theorem configuration_calls_binary (f : Fn) (hf : f ∈ configurationFns) :
    ∃ e ∈ entryPoints, e.fn = f ∧ e.ret = .int32_t ∧
      e.returns.success = .lit 0 ∧ e.returns.otherwise = -1 ∧
      e.returns.also = [] ∧ e.returns.outCodes = [] ∧ outputParams e = [] := by
  revert f
  decide

/-- C5 at `CT400_SwitchInput`. -/
theorem configuration_calls_binary_witness :
    Fn.CT400_SwitchInput ∈ configurationFns ∧
    ∃ e ∈ entryPoints, e.fn = .CT400_SwitchInput ∧ e.ret = .int32_t ∧
      e.returns.success = .lit 0 ∧ e.returns.otherwise = -1 ∧
      e.returns.also = [] ∧ e.returns.outCodes = [] ∧ outputParams e = [] :=
  ⟨by decide, configuration_calls_binary .CT400_SwitchInput (by decide)⟩

/-- C6 as stated fails: of the 37 declared entry points, those whose `Returns:`
clause is exactly `0 if success, -1 otherwise` are 15, fewer than half. -/
theorem exact_binary_contract_no_majority :
    entryPoints.length = 37 ∧
    (entryPoints.filter binaryContract).length = 15 ∧
    ¬ (entryPoints.length < 2 * (entryPoints.filter binaryContract).length) := by
  decide

/-- C6, amended: of the 37 declared entry points, 15 have exactly the clause
`0 if success, -1 otherwise`, which is not a majority; with the six
`CT400_ScanSave*File` entry points, whose clause is `0 if success and the
corresponding file path, -1 otherwise`, the entry points whose returned
integer is 0 on success and -1 otherwise are 21, a strict majority.  The entry
points documented to report an error code other than -1 are exactly
`CT400_Init`, through `iError` (-1001), and `CT400_ScanWaitEnd`, whose return
value is an error number that comes with an error description. -/
theorem binary_contract_majority :
    entryPoints.length = 37 ∧
    (entryPoints.filter binaryContract).length = 15 ∧
    (entryPoints.filter (fun e => returnsZeroOrMinusOne e && !binaryContract e)).map
        (fun e => (e.fn, e.returns))
      = [(.CT400_ScanSaveWavelengthSyncFile, ⟨.lit 0, ["file path"], -1, []⟩),
         (.CT400_ScanSaveWavelengthResampledFile, ⟨.lit 0, ["file path"], -1, []⟩),
         (.CT400_ScanSavePowerSyncFile, ⟨.lit 0, ["file path"], -1, []⟩),
         (.CT400_ScanSavePowerResampledFile, ⟨.lit 0, ["file path"], -1, []⟩),
         (.CT400_ScanSaveDetectorFile, ⟨.lit 0, ["file path"], -1, []⟩),
         (.CT400_ScanSaveDetectorResampledFile, ⟨.lit 0, ["file path"], -1, []⟩)] ∧
    (entryPoints.filter returnsZeroOrMinusOne).length = 21 ∧
    entryPoints.length < 2 * (entryPoints.filter returnsZeroOrMinusOne).length ∧
    (entryPoints.filter reportsErrorCode).map (fun e => (e.fn, e.returns))
      = [(.CT400_Init, ⟨.handle, [], 0, [("iError", -1001)]⟩),
         (.CT400_ScanWaitEnd, ⟨.errorNumber, ["error description"], -1, []⟩)] := by
  decide

/-- C7: `rLaserSource` names the seven laser models with the values 0 to 6 in
this order, followed by the sentinel `NB_SOURCE` with the value 7, the number
of models. -/
theorem rLaserSource_values :
    enumValues rLaserSource =
      [("LS_TunicsPlus", 0), ("LS_TunicsPurity", 1), ("LS_TunicsReference", 2),
       ("LS_TunicsT100s_HP", 3), ("LS_TunicsT100r", 4), ("LS_JdsuSws", 5),
       ("LS_Agilent", 6), ("NB_SOURCE", 7)] ∧
    laserModels.length = 7 ∧
    laserModels.map Prod.snd = [0, 1, 2, 3, 4, 5, 6] ∧
    enumValue? rLaserSource "NB_SOURCE" = some (laserModels.length : Int) := by
  decide

/-- C8: `rLaserInput` has exactly the tags `LI_1` to `LI_4`, the value of
`LI_n` is n, and an integer is one of its values exactly when it lies between
1 and 4; 0 is not among them. -/
theorem rLaserInput_values :
    enumValues rLaserInput = [("LI_1", 1), ("LI_2", 2), ("LI_3", 3), ("LI_4", 4)] ∧
    (∀ v : Int, v ∈ valueSet rLaserInput ↔ 1 ≤ v ∧ v ≤ 4) ∧
    (0 : Int) ∉ valueSet rLaserInput := by
  have h : valueSet rLaserInput = [1, 2, 3, 4] := by decide
  refine ⟨by decide, fun v => ?_, by decide⟩
  rw [h]
  simp only [List.mem_cons, List.mem_singleton, List.not_mem_nil, or_false]
  omega

/-- C9: `rDetector` has exactly the tags `DE_1` to `DE_5`, the value of `DE_n`
is n, and an integer is one of its values exactly when it lies between 1 and
5; 0 is not among them. -/
theorem rDetector_values :
    enumValues rDetector =
      [("DE_1", 1), ("DE_2", 2), ("DE_3", 3), ("DE_4", 4), ("DE_5", 5)] ∧
    (∀ v : Int, v ∈ valueSet rDetector ↔ 1 ≤ v ∧ v ≤ 5) ∧
    (0 : Int) ∉ valueSet rDetector := by
  have h : valueSet rDetector = [1, 2, 3, 4, 5] := by decide
  refine ⟨by decide, fun v => ?_, by decide⟩
  rw [h]
  simp only [List.mem_cons, List.mem_singleton, List.not_mem_nil, or_false]
  omega

/-- C10: `rEnable` is `DISABLE = 0`, `ENABLE = 1` and `rUnit` is `Unit_mW = 0`,
`Unit_dBm = 1`; an integer is a value of either exactly when it is 0 or 1. -/
theorem rEnable_rUnit_values :
    enumValues rEnable = [("DISABLE", 0), ("ENABLE", 1)] ∧
    enumValues rUnit = [("Unit_mW", 0), ("Unit_dBm", 1)] ∧
    (∀ v : Int, v ∈ valueSet rEnable ↔ v = 0 ∨ v = 1) ∧
    (∀ v : Int, v ∈ valueSet rUnit ↔ v = 0 ∨ v = 1) := by
  have h1 : valueSet rEnable = [0, 1] := by decide
  have h2 : valueSet rUnit = [0, 1] := by decide
  refine ⟨by decide, by decide, fun v => ?_, fun v => ?_⟩
  · rw [h1]
    simp
  · rw [h2]
    simp

/-- C11: the `CT400_ScanSave*File` entry points deliver the six series
WavelengthSync, WavelengthResampled, PowerSync, PowerResampled, Detector and
DetectorResampled, and the `CT400_ScanGet*Array` entry points deliver the same
six after LinesDetection.  For every `CT400_ScanSave*File` there is a
`CT400_ScanGet*Array` of the same series with the same selector parameters,
which are `rDetector eDetector` when the series is per-detector and none
otherwise.  Each of these series that is not in resampled form is offered in
resampled form too, as a file and as an array.  Every `CT400_ScanGet*Array`
has one array parameter, `double dArray[]`, followed by `int32_t iArraySize`. -/
theorem scan_file_array_pairing :
    fileSeries = ["WavelengthSync", "WavelengthResampled", "PowerSync", "PowerResampled",
      "Detector", "DetectorResampled"] ∧
    arraySeries = "LinesDetection" :: fileSeries ∧
    (∀ s ∈ entryPoints, ∀ x ∈ saveSeries s.fn,
      ∃ g ∈ entryPoints, getSeries g.fn = some x ∧
        selectorParams g = selectorParams s ∧
        selectorParams s =
          (if perDetector x then [⟨.IN, .rDetector, .value, "eDetector"⟩] else [])) ∧
    (∀ x ∈ fileSeries, isResampled x = false →
      resampledOf x ∈ fileSeries ∧ resampledOf x ∈ arraySeries) ∧
    (∀ g ∈ entryPoints, (getSeries g.fn).isSome →
      arrayParams g = [⟨.IN_OUT, .double, .array none, "dArray"⟩] ∧
      paramAfter g dArray = some ⟨.IN, .int32_t, .value, "iArraySize"⟩) := by
  refine ⟨by decide, by decide, ?_, by decide, by decide⟩
  decide

/-- C12: every entry point that takes the handle returns `int32_t` and
documents -1 as the value of a call that does not succeed, except
`CT400_CheckConnected`, which documents 1 for connected and 0 otherwise.  The
entry points whose success value is a number of items or a type code are the
`CT400_GetNb*` functions, `CT400_GetCT400Type` and the `CT400_ScanGet*Array`
family; for each of them -1 is a documented return value and every negative
documented return value is -1. -/
theorem negative_return_is_failure :
    (∀ e ∈ entryPoints, uiHandle ∈ e.params →
      e.ret = .int32_t ∧
      e.returns.otherwise = (if e.fn = .CT400_CheckConnected then 0 else -1)) ∧
    (declOf .CT400_CheckConnected).map (fun e => e.returns) = some ⟨.lit 1, [], 0, []⟩ ∧
    (entryPoints.filter yieldsCount).map (fun e => e.fn) =
      [.CT400_GetNbInputs, .CT400_GetNbDetectors, .CT400_GetCT400Type, .CT400_GetNbDataPoints,
       .CT400_GetNbDataPointsResampled, .CT400_GetNbLinesDetected] ++ scanGetArrayFns ∧
    (∀ e ∈ entryPoints, yieldsCount e = true →
      documentedReturn e (-1) = true ∧
      ∀ v : Int, documentedReturn e v = true → v < 0 → v = -1) := by
  refine ⟨by decide, by decide, by decide, ?_⟩
  have key : ∀ e ∈ entryPoints, yieldsCount e = true → e.returns.otherwise = -1 := by
    decide
  intro e he hy
  have ho := key e he hy
  refine ⟨by simp [documentedReturn, ho], fun v hv hneg => ?_⟩
  unfold documentedReturn at hv
  unfold yieldsCount at hy
  rw [ho] at hv
  cases hs : e.returns.success <;> simp [hs, Yield.admits] at hv hy <;> omega

end CT400
